import Mathlib

/-!
Shallow embedding of the EXIF metadata extractor of PhotoMinder
(`src/utils.ts`, `getExifDate`, lines 46-170) and of the surrounding
container/tag structures, together with proofs of the specification
claims about it.

Buffers are lists of byte values (`List Nat`).  Reads are modelled after
`DataView`: a read whose extent leaves the buffer raises a range error,
modelled by `Except.error ()`; the source wraps the whole parse in a
`try`/`catch` that maps any raised error to `undefined`.  The parse result
is `Option LocalDT`: `none` is the "no metadata" outcome (`undefined`),
`some dt` a decoded local-time capture instant.
-/

namespace PhotoMinder

/-- Local date-time components, modelling the local-time instant a JS
`Date` denotes (epoch conversion depends on the host timezone and is kept
symbolic as the component tuple). -/
structure LocalDT where
  year : Nat
  month : Nat
  day : Nat
  hour : Nat
  minute : Nat
  second : Nat
deriving DecidableEq, Repr

/-- `DataView.getUint8`-style byte access (the default value is irrelevant:
every call site is bounds-guarded). -/
def readU8 (b : List Nat) (i : Nat) : Nat := b.getD i 0

/-- Unsigned 16-bit read at `i`; `le` selects little-endian. -/
def readU16 (b : List Nat) (i : Nat) (le : Bool) : Nat :=
  if le then readU8 b i + 256 * readU8 b (i+1)
  else 256 * readU8 b i + readU8 b (i+1)

/-- Unsigned 32-bit read at `i`; `le` selects little-endian. -/
def readU32 (b : List Nat) (i : Nat) (le : Bool) : Nat :=
  if le then readU16 b i true + 65536 * readU16 b (i+2) true
  else 65536 * readU16 b i false + readU16 b (i+2) false

/-- `DataView.getUint8` with its range check: out-of-bounds raises. -/
def getU8E (b : List Nat) (i : Nat) : Except Unit Nat :=
  if i + 1 ≤ b.length then .ok (readU8 b i) else .error ()

/-- `DataView.getUint16` with its range check: out-of-bounds raises. -/
def getU16E (b : List Nat) (i : Nat) (le : Bool) : Except Unit Nat :=
  if i + 2 ≤ b.length then .ok (readU16 b i le) else .error ()

/-- `DataView.getUint32` with its range check: out-of-bounds raises. -/
def getU32E (b : List Nat) (i : Nat) (le : Bool) : Except Unit Nat :=
  if i + 4 ≤ b.length then .ok (readU32 b i le) else .error ()

/-- The `n` consecutive `getUint8` reads of source lines 149-151: all
succeed exactly when the whole extent lies inside the buffer. -/
def readBytesE (b : List Nat) (off n : Nat) : Except Unit (List Nat) :=
  if off + n ≤ b.length then .ok ((List.range n).map fun j => readU8 b (off + j))
  else .error ()

/-- ASCII decimal digit test on a byte value. -/
def isDigitB (c : Nat) : Bool := decide (48 ≤ c ∧ c ≤ 57)

/-- Numeric value of an ASCII digit byte. -/
def digitVal (c : Nat) : Nat := c - 48

/-- The source's anchored regex rewrite (line 155): when the string starts
with four digits, a colon, two digits, a colon, two digits, both colons of
that prefix become dashes; otherwise the string is unchanged. -/
def rewriteDateSep (s : List Nat) : List Nat :=
  match s with
  | a1 :: a2 :: a3 :: a4 :: c1 :: b1 :: b2 :: c2 :: e1 :: e2 :: rest =>
    if isDigitB a1 && isDigitB a2 && isDigitB a3 && isDigitB a4 && c1 == 58
        && isDigitB b1 && isDigitB b2 && c2 == 58 && isDigitB e1 && isDigitB e2
    then a1 :: a2 :: a3 :: a4 :: 45 :: b1 :: b2 :: 45 :: e1 :: e2 :: rest
    else s
  | _ => s

/-- JS `.replace(' ', 'T')`: only the first space becomes `T` (line 155). -/
def replaceFirstSpace : List Nat → List Nat
  | [] => []
  | c :: rest => if c == 32 then 84 :: rest else c :: replaceFirstSpace rest

/-- Gregorian leap-year rule, as used by the JS `Date` engine. -/
def leapYear (y : Nat) : Bool := decide ((y % 4 = 0 ∧ y % 100 ≠ 0) ∨ y % 400 = 0)

/-- Days in a Gregorian month. -/
def daysInMonth (y m : Nat) : Nat :=
  if m = 2 then (if leapYear y then 29 else 28)
  else if m = 4 ∨ m = 6 ∨ m = 9 ∨ m = 11 then 30
  else 31

/-- Model of JS `new Date(s).getTime()` restricted to the 19-character
strings reachable at source line 156: the ECMA-262 Date Time String Format
instance of that length, `YYYY-MM-DDTHH:MM:SS`, interpreted as local time,
with month, day-of-month, hour (24 only as 24:00:00), minute and second
range-checked as JS engines do; every other string is modelled as an
invalid date (`NaN`), as the engines' fallback parsers reject the
non-conforming strings reachable here. -/
def jsDateParse19 (s : List Nat) : Option LocalDT :=
  match s with
  | [y1,y2,y3,y4,h1,m1,m2,h2,d1,d2,t,a1,a2,c1,b1,b2,c2,e1,e2] =>
    if isDigitB y1 && isDigitB y2 && isDigitB y3 && isDigitB y4 && h1 == 45
        && isDigitB m1 && isDigitB m2 && h2 == 45 && isDigitB d1 && isDigitB d2
        && t == 84 && isDigitB a1 && isDigitB a2 && c1 == 58 && isDigitB b1
        && isDigitB b2 && c2 == 58 && isDigitB e1 && isDigitB e2
    then
      let y := 1000 * digitVal y1 + 100 * digitVal y2 + 10 * digitVal y3 + digitVal y4
      let mo := 10 * digitVal m1 + digitVal m2
      let d := 10 * digitVal d1 + digitVal d2
      let h := 10 * digitVal a1 + digitVal a2
      let mi := 10 * digitVal b1 + digitVal b2
      let ss := 10 * digitVal e1 + digitVal e2
      if 1 ≤ mo ∧ mo ≤ 12 ∧ 1 ≤ d ∧ d ≤ daysInMonth y mo
          ∧ (h ≤ 23 ∨ (h = 24 ∧ mi = 0 ∧ ss = 0)) ∧ mi ≤ 59 ∧ ss ≤ 59
      then some ⟨y, mo, d, h, mi, ss⟩ else none
    else none
  | _ => none

/-- Source lines 153-158 applied to the decoded 19-byte string: result
`none` means the `includes` guard failed and the entry loop continues;
`some r` means the function returns `r` (`r = none` when the constructed
date is invalid). -/
def dateFromStr (s : List Nat) : Option (Option LocalDT) :=
  if s.contains 58 then some (jsDateParse19 (replaceFirstSpace (rewriteDateSep s)))
  else none

/-- The directory-entry loop, source lines 125-161.  `i` is the loop
index; bounds failure on an entry window or on the pointed-to string
returns `none` for the whole parse, a non-matching entry falls through to
the next index, and a decoded-but-unparseable string with no colon also
falls through (line 154's guard). -/
def entryLoopE (b : List Nat) (tiffOffset ifdOffset : Nat) (le : Bool)
    (entries i : Nat) : Except Unit (Option LocalDT) :=
  if i < entries then
    -- the source's `entryOffset` is `ifdOffset + 2 + i * 12` (line 126)
    if ifdOffset + 2 + i * 12 + 12 > b.length then .ok none
    else
      match getU16E b (ifdOffset + 2 + i * 12) le with
      | .error e => .error e
      | .ok tag =>
        if tag = 0x9003 then
          match getU16E b (ifdOffset + 2 + i * 12 + 2) le with
          | .error e => .error e
          | .ok ty =>
            match getU32E b (ifdOffset + 2 + i * 12 + 4) le with
            | .error e => .error e
            | .ok count =>
              match getU32E b (ifdOffset + 2 + i * 12 + 8) le with
              | .error e => .error e
              | .ok dataOffset =>
                if ty = 2 ∧ count = 20 then
                  -- the source's `dateStringOffset` is `tiffOffset + dataOffset`
                  if tiffOffset + dataOffset + 20 > b.length then .ok none
                  else
                    match readBytesE b (tiffOffset + dataOffset) 19 with
                    | .error e => .error e
                    | .ok dateStr =>
                      match dateFromStr dateStr with
                      | some r => .ok r
                      | none => entryLoopE b tiffOffset ifdOffset le entries (i+1)
                else entryLoopE b tiffOffset ifdOffset le entries (i+1)
        else entryLoopE b tiffOffset ifdOffset le entries (i+1)
  else .ok none
termination_by entries - i

/-- The TIFF-header body after the byte-order flag is fixed: magic `0x2A`
check, first-IFD offset, entry count (source lines 110-122). -/
def tiffBodyE (b : List Nat) (tiffOffset : Nat) (le : Bool) :
    Except Unit (Option LocalDT) :=
  match getU16E b (tiffOffset + 2) le with
  | .error e => .error e
  | .ok magic =>
    if magic ≠ 0x002A then .ok none
    else
      match getU32E b (tiffOffset + 4) le with
      | .error e => .error e
      | .ok firstIFDOffset =>
        if firstIFDOffset < 8 then .ok none
        else
          -- the source's `ifdOffset` is `tiffOffset + firstIFDOffset`
          if tiffOffset + firstIFDOffset + 2 > b.length then .ok none
          else
            match getU16E b (tiffOffset + firstIFDOffset) le with
            | .error e => .error e
            | .ok entries =>
              entryLoopE b tiffOffset (tiffOffset + firstIFDOffset) le entries 0

/-- Byte-order flag handling, source lines 106-107: `littleEndian` is set
exactly when the 2-byte field equals `0x4949`; any other value, `0x4D4D`
or not, selects big-endian interpretation. -/
def parseTiffE (b : List Nat) (tiffOffset : Nat) : Except Unit (Option LocalDT) :=
  match getU16E b tiffOffset false with
  | .error e => .error e
  | .ok byteOrder => tiffBodyE b tiffOffset (byteOrder == 0x4949)

/-- The APP1/Exif segment parse, source lines 79-162: segment length
bounds, `Exif\0\0` signature, then the TIFF payload. -/
def parseApp1E (b : List Nat) (offset : Nat) : Except Unit (Option LocalDT) :=
  if offset + 4 > b.length then .ok none
  else
    match getU16E b (offset + 2) false with
    | .error e => .error e
    | .ok segmentLength =>
      if offset + 2 + segmentLength > b.length then .ok none
      else
        -- the source's `exifHeaderOffset` is `offset + 4`,
        -- its `tiffOffset` is `exifHeaderOffset + 6 = offset + 10`
        if offset + 4 + 6 > b.length then .ok none
        else
          match getU32E b (offset + 4) false with
          | .error e => .error e
          | .ok sig =>
            if sig ≠ 0x45786966 then .ok none
            else
              match getU16E b (offset + 4 + 4) false with
              | .error e => .error e
              | .ok nulls =>
                if nulls ≠ 0 then .ok none
                else
                  if offset + 10 + 8 > b.length then .ok none
                  else parseTiffE b (offset + 10)

/-- The segment-scanning `while` loop, source lines 60-163: stop with "no
metadata" at `0xFFDA` (start of scan) or at end of buffer; hand the first
`0xFFE1` segment to the APP1 parser and return its result; skip any other
segment by its declared length. -/
def scanE (b : List Nat) (offset : Nat) : Except Unit (Option LocalDT) :=
  if _h : offset < b.length - 1 then
    match getU16E b offset false with
    | .error e => .error e
    | .ok marker =>
      if marker = 0xFFDA then .ok none
      else if marker ≠ 0xFFE1 then
        if offset + 4 > b.length then .ok none
        else
          match getU16E b (offset + 2) false with
          | .error e => .error e
          | .ok segmentLength => scanE b (offset + 2 + segmentLength)
      else parseApp1E b offset
  else .ok none
termination_by b.length - offset
decreasing_by simp_wf; omega

/-- The whole buffer parse, source lines 55-164: SOI marker check, then
the segment scan starting at offset 2. -/
def parseJpegE (b : List Nat) : Except Unit (Option LocalDT) :=
  if b.length < 2 then .ok none
  else
    match getU16E b 0 false with
    | .error e => .error e
    | .ok soi =>
      if soi ≠ 0xFFD8 then .ok none
      else scanE b 2

/-- `getExifDate`, source lines 46-170: the media-type gate (line 48),
the 64 KiB prefix slice (line 51), and the `try`/`catch` that converts any
raised range error to `undefined` (lines 165-169). -/
def getExifDate (fileType : String) (bytes : List Nat) : Option LocalDT :=
  if fileType ≠ "image/jpeg" ∧ fileType ≠ "image/jpg" then none
  else
    match parseJpegE (bytes.take 65536) with
    | .ok r => r
    | .error _ => none

/-! ### Spec-modelled Result Assembler (make/model fields)

The repository declares the make/model metadata fields (`ExifData` in
`src/types.ts`) and consumes them (`DetailsPane.tsx`), but no code under
`src/` decodes or assembles them; only the timestamp path exists in
`getExifDate`.  The assembler for these fields is therefore modelled from
the spec (sections 4.3 and 6). -/

/-- Output record of the Result Assembler (spec sections 4.3 and 6),
restricted to the fields the claims mention; string fields are byte
strings. -/
structure OutputRecord where
  capturedAt : Option LocalDT
  cameraMake : Option (List Nat)
  cameraModel : Option (List Nat)
deriving DecidableEq, Repr

/-- Raw decoded tag values handed to the Result Assembler: each is
present exactly when its directory entry decoded successfully. -/
structure RawTags where
  timestampRaw : Option (List Nat)
  makeRaw : Option (List Nat)
  modelRaw : Option (List Nat)
deriving DecidableEq, Repr

/-- Modelled from the spec: the Result Assembler's timestamp conversion
(spec section 4.3), absent from `src/` for the record-producing parser —
a fixed-pattern `YYYY:MM:DD HH:MM:SS` byte string, split on separators,
each component numeric, and the resulting date valid; anything else
yields no timestamp. -/
def specParseTimestamp (s : List Nat) : Option LocalDT :=
  match s with
  | [y1,y2,y3,y4,c1,m1,m2,c2,d1,d2,sp,a1,a2,c3,b1,b2,c4,e1,e2] =>
    if isDigitB y1 && isDigitB y2 && isDigitB y3 && isDigitB y4 && c1 == 58
        && isDigitB m1 && isDigitB m2 && c2 == 58 && isDigitB d1 && isDigitB d2
        && sp == 32 && isDigitB a1 && isDigitB a2 && c3 == 58 && isDigitB b1
        && isDigitB b2 && c4 == 58 && isDigitB e1 && isDigitB e2
    then
      let y := 1000 * digitVal y1 + 100 * digitVal y2 + 10 * digitVal y3 + digitVal y4
      let mo := 10 * digitVal m1 + digitVal m2
      let d := 10 * digitVal d1 + digitVal d2
      let h := 10 * digitVal a1 + digitVal a2
      let mi := 10 * digitVal b1 + digitVal b2
      let ss := 10 * digitVal e1 + digitVal e2
      if 1 ≤ mo ∧ mo ≤ 12 ∧ 1 ≤ d ∧ d ≤ daysInMonth y mo
          ∧ h ≤ 23 ∧ mi ≤ 59 ∧ ss ≤ 59
      then some ⟨y, mo, d, h, mi, ss⟩ else none
    else none
  | _ => none

/-- Modelled from the spec: the Result Assembler (spec sections 4.3 and
6), absent from `src/` — string fields are copied through as decoded,
each independently of the others; the timestamp field is converted by the
fixed-pattern parse; a missing or failed raw value yields an absent
field, never a placeholder. -/
def specAssemble (r : RawTags) : OutputRecord :=
  { capturedAt := r.timestampRaw.bind specParseTimestamp
    cameraMake := r.makeRaw
    cameraModel := r.modelRaw }

/-! ### Encoder for byte-order invariance (C8) -/

/-- 2-byte encoding of `v` in the chosen byte order. -/
def u16bytes (le : Bool) (v : Nat) : List Nat :=
  if le then [v % 256, v / 256 % 256] else [v / 256 % 256, v % 256]

/-- 4-byte encoding of `v` in the chosen byte order. -/
def u32bytes (le : Bool) (v : Nat) : List Nat :=
  if le then [v % 256, v / 256 % 256, v / 65536 % 256, v / 16777216 % 256]
  else [v / 16777216 % 256, v / 65536 % 256, v / 256 % 256, v % 256]

/-- The two recognized byte-order markers: `II` and `MM`. -/
def bomBytes (le : Bool) : List Nat := if le then [0x49, 0x49] else [0x4D, 0x4D]

/-- One logical 12-byte directory entry: tag, value type, value count,
value-or-offset. -/
structure TiffEntry where
  tag : Nat
  ty : Nat
  cnt : Nat
  off : Nat
deriving DecidableEq, Repr

/-- Byte encoding of one directory entry in the chosen byte order. -/
def encEntry (le : Bool) (e : TiffEntry) : List Nat :=
  u16bytes le e.tag ++ u16bytes le e.ty ++ u32bytes le e.cnt ++ u32bytes le e.off

/-- TIFF payload encoding: byte-order marker, magic 42, first-IFD offset
`f`, zero padding up to `f`, entry count, the entries, then the
endian-neutral data area. -/
def encTiff (le : Bool) (f : Nat) (es : List TiffEntry) (data : List Nat) : List Nat :=
  bomBytes le ++ u16bytes le 42 ++ u32bytes le f ++ List.replicate (f - 8) 0
    ++ u16bytes le es.length ++ (es.map (encEntry le)).flatten ++ data

/-- Whole JPEG buffer: SOI, one APP1 segment whose declared length covers
exactly the `Exif\0\0` header plus the encoded TIFF payload. -/
def encodeJpeg (le : Bool) (f : Nat) (es : List TiffEntry) (data : List Nat) : List Nat :=
  [0xFF, 0xD8, 0xFF, 0xE1] ++ u16bytes false (8 + (encTiff le f es data).length)
    ++ [0x45, 0x78, 0x69, 0x66, 0x00, 0x00] ++ encTiff le f es data

/-! ### Concrete buffers used by the claims -/

/-- The spec's concrete scenario (C6): SOI, APP1 with `Exif\0\0`,
little-endian TIFF header, magic `0x2A`, one ASCII entry for tag `0x9003`
with count 20 whose offset points at `"2024:03:15 10:30:00\0"`. -/
def c6buf : List Nat :=
  [0xFF,0xD8,0xFF,0xE1,0x00,0x32,
   0x45,0x78,0x69,0x66,0x00,0x00,
   0x49,0x49,0x2A,0x00,0x08,0x00,0x00,0x00,
   0x01,0x00,
   0x03,0x90,0x02,0x00,0x14,0x00,0x00,0x00,0x16,0x00,0x00,0x00,
   0x32,0x30,0x32,0x34,0x3A,0x30,0x33,0x3A,0x31,0x35,0x20,
   0x31,0x30,0x3A,0x33,0x30,0x3A,0x30,0x30,0x00]

/-- Like `c6buf` but with byte-order field `0x0000` (recognized by
neither `II` nor `MM`) and every multi-byte field big-endian. -/
def c3buf : List Nat :=
  [0xFF,0xD8,0xFF,0xE1,0x00,0x32,
   0x45,0x78,0x69,0x66,0x00,0x00,
   0x00,0x00,0x00,0x2A,0x00,0x00,0x00,0x08,
   0x00,0x01,
   0x90,0x03,0x00,0x02,0x00,0x00,0x00,0x14,0x00,0x00,0x00,0x16,
   0x32,0x30,0x32,0x34,0x3A,0x30,0x33,0x3A,0x31,0x35,0x20,
   0x31,0x30,0x3A,0x33,0x30,0x3A,0x30,0x30,0x00]

/-- Like `c6buf` but the stored 19-character value is
`"2024-03-15T10:30:00"`, which does not have the `YYYY:MM:DD HH:MM:SS`
shape. -/
def c5buf : List Nat :=
  [0xFF,0xD8,0xFF,0xE1,0x00,0x32,
   0x45,0x78,0x69,0x66,0x00,0x00,
   0x49,0x49,0x2A,0x00,0x08,0x00,0x00,0x00,
   0x01,0x00,
   0x03,0x90,0x02,0x00,0x14,0x00,0x00,0x00,0x16,0x00,0x00,0x00,
   0x32,0x30,0x32,0x34,0x2D,0x30,0x33,0x2D,0x31,0x35,0x54,
   0x31,0x30,0x3A,0x33,0x30,0x3A,0x30,0x30,0x00]

/-- An APP1 segment whose signature reads `Fxif\0\0`, not `Exif\0\0`. -/
def c9badseg : List Nat := [0xFF,0xE1,0x00,0x08,0x46,0x78,0x69,0x66,0x00,0x00]

/-- A buffer whose first APP1 segment has a bad Exif signature and whose
second APP1 segment is the valid segment of `c6buf`. -/
def c9buf1 : List Nat := [0xFF,0xD8] ++ c9badseg ++ c6buf.drop 2

/-- A buffer with a correct SOI whose single segment marker is the
start-of-scan marker `0xFFDA`. -/
def c7sosbuf : List Nat := [0xFF,0xD8,0xFF,0xDA,0x00,0x04,0x00,0x00]

/-! ## Read lemmas -/

theorem getU16E_pos (b : List Nat) (i : Nat) (le : Bool) (h : i + 2 ≤ b.length) :
    getU16E b i le = .ok (readU16 b i le) := by
  simp [getU16E, h]

theorem getU32E_pos (b : List Nat) (i : Nat) (le : Bool) (h : i + 4 ≤ b.length) :
    getU32E b i le = .ok (readU32 b i le) := by
  simp [getU32E, h]

theorem readBytesE_pos (b : List Nat) (off n : Nat) (h : off + n ≤ b.length) :
    readBytesE b off n = .ok ((List.range n).map fun j => readU8 b (off + j)) := by
  simp [readBytesE, h]

/-! ## Totality: every read the parser issues is bounds-guarded, so no
stage ever raises -/

theorem entryLoopE_ok (b : List Nat) (t ifd : Nat) (le : Bool) (n i : Nat) :
    ∃ r, entryLoopE b t ifd le n i = .ok r := by
  have H : ∀ k j, n - j ≤ k → ∃ r, entryLoopE b t ifd le n j = .ok r := by
    intro k
    induction k with
    | zero =>
      intro j hk
      rw [entryLoopE]
      have hj : ¬ j < n := by omega
      simp [hj]
    | succ k ih =>
      intro j hk
      rw [entryLoopE]
      by_cases hj : j < n
      · rw [if_pos hj]
        by_cases h12 : ifd + 2 + j * 12 + 12 > b.length
        · rw [if_pos h12]; exact ⟨none, rfl⟩
        · rw [if_neg h12, getU16E_pos b _ le (by omega)]
          by_cases htag : readU16 b (ifd + 2 + j * 12) le = 0x9003
          · simp only [htag, if_true]
            rw [getU16E_pos b _ le (by omega), getU32E_pos b _ le (by omega),
                getU32E_pos b _ le (by omega)]
            by_cases htc : readU16 b (ifd + 2 + j * 12 + 2) le = 2 ∧
                readU32 b (ifd + 2 + j * 12 + 4) le = 20
            · simp only [htc, if_true]
              by_cases hso : t + readU32 b (ifd + 2 + j * 12 + 8) le + 20 > b.length
              · rw [if_pos hso]; exact ⟨none, rfl⟩
              · rw [if_neg hso, readBytesE_pos b _ _ (by omega)]
                cases hdf : dateFromStr ((List.range 19).map fun j2 =>
                    readU8 b (t + readU32 b (ifd + 2 + j * 12 + 8) le + j2)) with
                | some r => simp [hdf]
                | none => simpa [hdf] using ih (j+1) (by omega)
            · simp only [htc, if_false]
              exact ih (j+1) (by omega)
          · simp only [htag, if_false]
            exact ih (j+1) (by omega)
      · rw [if_neg hj]; exact ⟨none, rfl⟩
  exact H (n - i) i (Nat.le_refl _)

theorem tiffBodyE_ok (b : List Nat) (t : Nat) (le : Bool) (h : t + 8 ≤ b.length) :
    ∃ r, tiffBodyE b t le = .ok r := by
  rw [tiffBodyE, getU16E_pos b _ le (by omega)]
  by_cases hm : readU16 b (t + 2) le ≠ 0x002A
  · simp [hm]
  · simp only [hm, if_false]
    rw [getU32E_pos b _ le (by omega)]
    by_cases hf : readU32 b (t + 4) le < 8
    · simp [hf]
    · simp only [hf, if_false]
      by_cases hb : t + readU32 b (t + 4) le + 2 > b.length
      · rw [if_pos hb]; exact ⟨none, rfl⟩
      · rw [if_neg hb, getU16E_pos b _ le (by omega)]
        exact entryLoopE_ok b t _ le _ 0

theorem parseTiffE_ok (b : List Nat) (t : Nat) (h : t + 8 ≤ b.length) :
    ∃ r, parseTiffE b t = .ok r := by
  rw [parseTiffE, getU16E_pos b _ false (by omega)]
  exact tiffBodyE_ok b t _ h

theorem parseApp1E_ok (b : List Nat) (offset : Nat) :
    ∃ r, parseApp1E b offset = .ok r := by
  rw [parseApp1E]
  by_cases h4 : offset + 4 > b.length
  · rw [if_pos h4]; exact ⟨none, rfl⟩
  · rw [if_neg h4, getU16E_pos b _ false (by omega)]
    by_cases hseg : offset + 2 + readU16 b (offset + 2) false > b.length
    · simp only [hseg, if_true]; exact ⟨none, rfl⟩
    · simp only [hseg, if_false]
      by_cases h10 : offset + 4 + 6 > b.length
      · simp only [h10, if_true]; exact ⟨none, rfl⟩
      · simp only [h10, if_false]
        rw [getU32E_pos b _ false (by omega)]
        by_cases hsig : readU32 b (offset + 4) false ≠ 0x45786966
        · simp [hsig]
        · simp only [hsig, if_false]
          rw [getU16E_pos b _ false (by omega)]
          by_cases hnul : readU16 b (offset + 4 + 4) false ≠ 0
          · simp [hnul]
          · simp only [hnul, if_false]
            by_cases h18 : offset + 10 + 8 > b.length
            · simp only [h18, if_true]; exact ⟨none, rfl⟩
            · simp only [h18, if_false]
              exact parseTiffE_ok b _ (by omega)

theorem scanE_ok (b : List Nat) (offset : Nat) :
    ∃ r, scanE b offset = .ok r := by
  have H : ∀ k j, b.length - j ≤ k → ∃ r, scanE b j = .ok r := by
    intro k
    induction k with
    | zero =>
      intro j hk
      rw [scanE]
      have hj : ¬ j < b.length - 1 := by omega
      simp [hj]
    | succ k ih =>
      intro j hk
      rw [scanE]
      by_cases hj : j < b.length - 1
      · rw [dif_pos hj, getU16E_pos b _ false (by omega)]
        by_cases hda : readU16 b j false = 0xFFDA
        · simp [hda]
        · simp only [hda, if_false]
          by_cases he1 : readU16 b j false = 0xFFE1
          · simp only [he1, ne_eq, not_true_eq_false, if_false]
            exact parseApp1E_ok b j
          · simp only [ne_eq, he1, not_false_eq_true, if_true]
            by_cases h4 : j + 4 > b.length
            · simp only [h4, if_true]; exact ⟨none, rfl⟩
            · simp only [h4, if_false]
              rw [getU16E_pos b _ false (by omega)]
              exact ih (j + 2 + readU16 b (j + 2) false) (by omega)
      · rw [dif_neg hj]; exact ⟨none, rfl⟩
  exact H (b.length - offset) offset (Nat.le_refl _)

theorem parseJpegE_ok (b : List Nat) : ∃ r, parseJpegE b = .ok r := by
  rw [parseJpegE]
  by_cases h2 : b.length < 2
  · rw [if_pos h2]; exact ⟨none, rfl⟩
  · rw [if_neg h2, getU16E_pos b _ false (by omega)]
    by_cases hsoi : readU16 b 0 false ≠ 0xFFD8
    · simp [hsoi]
    · simp only [hsoi, if_false]
      exact scanE_ok b 2

/-! ## Digit byte lemmas -/

theorem isDigitB_of (d : Nat) (h : d ≤ 9) : isDigitB (48 + d) = true := by
  simp [isDigitB]; omega

theorem digitVal_of (d : Nat) : digitVal (48 + d) = d := by simp [digitVal]

theorem beq32_of (d : Nat) (h : d ≤ 9) : ((48 + d : Nat) == 32) = false := by
  simp only [beq_eq_false_iff_ne]; omega

/-! ## Claims -/

/-- C1: for every input buffer, every read `getExifDate` issues is
preceded by a bounds check covering the read's full extent — the parse
never raises a range error (`parseJpegE` always returns `Except.ok`) —
and the caller always receives a plain optional timestamp, never a
failure. -/
theorem c1_bounds_checked_total (fileType : String) (bytes : List Nat) :
    ∃ r : Option LocalDT, parseJpegE (bytes.take 65536) = Except.ok r ∧
      (getExifDate fileType bytes = none ∨ getExifDate fileType bytes = r) := by
  obtain ⟨r, hr⟩ := parseJpegE_ok (bytes.take 65536)
  refine ⟨r, hr, ?_⟩
  unfold getExifDate
  by_cases hft : fileType ≠ "image/jpeg" ∧ fileType ≠ "image/jpg"
  · rw [if_pos hft]; left; rfl
  · rw [if_neg hft, hr]; right; rfl

/-- C2 (spec-modelled): a payload whose timestamp raw value fails the
fixed-pattern parse but whose make/model raw values are present yields a
record with `cameraMake`/`cameraModel` set and `capturedAt` absent; the
make and model outputs depend only on their own raw values. -/
theorem c2_field_independence (mk md ts : List Nat)
    (hts : specParseTimestamp ts = none) :
    specAssemble ⟨some ts, some mk, some md⟩ = ⟨none, some mk, some md⟩ ∧
    (∀ r : RawTags, (specAssemble r).cameraMake = r.makeRaw ∧
        (specAssemble r).cameraModel = r.modelRaw) := by
  constructor
  · simp [specAssemble, hts]
  · intro r; exact ⟨rfl, rfl⟩

theorem c2_field_independence_witness :
    specAssemble ⟨some (List.replicate 19 88), some [67, 97, 110, 111, 110],
        some [69, 79, 83]⟩ =
      ⟨none, some [67, 97, 110, 111, 110], some [69, 79, 83]⟩ :=
  (c2_field_independence [67, 97, 110, 111, 110] [69, 79, 83]
    (List.replicate 19 88) (by decide)).1

/-- C3 counterexample: `c3buf` carries the byte-order marker `0x0000`,
which is neither `II` (`0x4949`) nor `MM` (`0x4D4D`), yet the decode does
not fail: the payload is decoded big-endian and the parse returns a
timestamp, not "no metadata". -/
theorem c3_unrecognized_byte_order_counterexample :
    readU16 c3buf 12 false ≠ 0x4949 ∧ readU16 c3buf 12 false ≠ 0x4D4D ∧
    getExifDate "image/jpeg" c3buf = some ⟨2024, 3, 15, 10, 30, 0⟩ := by
  refine ⟨by decide, by decide, ?_⟩
  have h1 : List.take 65536 c3buf = c3buf := by decide
  have h2 : parseJpegE c3buf = .ok (some ⟨2024, 3, 15, 10, 30, 0⟩) := by
    simp [parseJpegE, scanE, parseApp1E, parseTiffE, tiffBodyE, entryLoopE,
      getU16E, getU32E, readBytesE, readU16, readU32, readU8, c3buf, dateFromStr,
      jsDateParse19, rewriteDateSep, replaceFirstSpace, isDigitB, digitVal,
      daysInMonth, leapYear, List.getD, List.range, List.range.loop]
  rw [getExifDate, if_neg (by simp), h1, h2]

/-- C3 amended: any byte-order marker other than `0x4949` — `0x4D4D` and
unrecognized values alike — selects big-endian interpretation; an
unrecognized marker never by itself makes the decode fail. -/
theorem c3_byte_order_amended (b : List Nat) (t : Nat) (h : t + 2 ≤ b.length)
    (hbo : readU16 b t false ≠ 0x4949) :
    parseTiffE b t = tiffBodyE b t false := by
  rw [parseTiffE, getU16E_pos b t false h]
  show tiffBodyE b t (readU16 b t false == 0x4949) = tiffBodyE b t false
  have : (readU16 b t false == 0x4949) = false := by simp [hbo]
  rw [this]

theorem c3_byte_order_amended_witness :
    parseTiffE c3buf 12 = tiffBodyE c3buf 12 false :=
  c3_byte_order_amended c3buf 12 (by decide) (by decide)

theorem parseJpeg_step (b : List Nat) (h2 : 2 ≤ b.length)
    (hsoi : readU16 b 0 false = 0xFFD8) :
    parseJpegE b = scanE b 2 := by
  rw [parseJpegE, if_neg (by omega), getU16E_pos _ _ false (by omega), hsoi]
  simp

theorem scanE_app1_step (b : List Nat) (j : Nat) (hj : j < b.length - 1)
    (hmark : readU16 b j false = 0xFFE1) :
    scanE b j = parseApp1E b j := by
  rw [scanE, dif_pos hj, getU16E_pos _ _ false (by omega)]
  simp [hmark]

theorem parseApp1_truncated (b : List Nat) (j : Nat) (h4 : j + 4 ≤ b.length)
    (hlen : b.length < j + 2 + readU16 b (j + 2) false) :
    parseApp1E b j = .ok none := by
  rw [parseApp1E, if_neg (by omega), getU16E_pos _ _ false (by omega)]
  have hc : j + 2 + readU16 b (j + 2) false > b.length := by omega
  simp [hc]

/-- C4: at any scan position holding an APP1 segment whose declared
2-byte length would extend the segment past the buffer's end, the parser
returns "no metadata" rather than clamp or read past the buffer: the
APP1 parse yields none, the scan that meets such a segment yields none,
and in particular a buffer whose first segment is such an APP1 parses to
none. -/
theorem c4_truncated_segment_fails :
    (∀ (b : List Nat) (j : Nat), j + 4 ≤ b.length →
        b.length < j + 2 + readU16 b (j + 2) false →
        parseApp1E b j = .ok none) ∧
    (∀ (b : List Nat) (j : Nat), j < b.length - 1 →
        readU16 b j false = 0xFFE1 → j + 4 ≤ b.length →
        b.length < j + 2 + readU16 b (j + 2) false →
        scanE b j = .ok none) ∧
    (∀ b : List Nat, 6 ≤ b.length → readU16 b 0 false = 0xFFD8 →
        readU16 b 2 false = 0xFFE1 → b.length < 4 + readU16 b 4 false →
        parseJpegE b = .ok none) := by
  refine ⟨parseApp1_truncated, ?_, ?_⟩
  · intro b j hj hmark h4 hlen
    rw [scanE_app1_step b j hj hmark]
    exact parseApp1_truncated b j h4 hlen
  · intro b h6 hsoi hmark hlen
    rw [parseJpeg_step b (by omega) hsoi, scanE_app1_step b 2 (by omega) hmark]
    exact parseApp1_truncated b 2 (by omega)
      (by show b.length < 2 + 2 + readU16 b 4 false; omega)

theorem c4_truncated_segment_fails_witness :
    parseApp1E [0xFF, 0xD8, 0xFF, 0xE0, 0x00, 0x04, 0x00, 0x00,
        0xFF, 0xE1, 0xFF, 0xFF] 8 = .ok none ∧
    scanE [0xFF, 0xD8, 0xFF, 0xE0, 0x00, 0x04, 0x00, 0x00,
        0xFF, 0xE1, 0xFF, 0xFF] 8 = .ok none ∧
    parseJpegE [0xFF, 0xD8, 0xFF, 0xE1, 0xFF, 0xFF] = .ok none :=
  ⟨c4_truncated_segment_fails.1 [0xFF, 0xD8, 0xFF, 0xE0, 0x00, 0x04, 0x00, 0x00,
      0xFF, 0xE1, 0xFF, 0xFF] 8 (by decide) (by decide),
   c4_truncated_segment_fails.2.1 [0xFF, 0xD8, 0xFF, 0xE0, 0x00, 0x04, 0x00, 0x00,
      0xFF, 0xE1, 0xFF, 0xFF] 8 (by decide) (by decide) (by decide) (by decide),
   c4_truncated_segment_fails.2.2 [0xFF, 0xD8, 0xFF, 0xE1, 0xFF, 0xFF]
      (by decide) (by decide) (by decide) (by decide)⟩

/-- C5 counterexample: `c5buf` stores the 19-character value
`2024-03-15T10:30:00`, whose fifth byte is a dash, not a colon, so it
does not have the `YYYY:MM:DD HH:MM:SS` shape — yet the parser produces a
timestamp for it. -/
theorem c5_shape_only_counterexample :
    getExifDate "image/jpeg" c5buf = some ⟨2024, 3, 15, 10, 30, 0⟩ ∧
    readU8 c5buf 38 ≠ 58 := by
  refine ⟨?_, by decide⟩
  have h1 : List.take 65536 c5buf = c5buf := by decide
  have h2 : parseJpegE c5buf = .ok (some ⟨2024, 3, 15, 10, 30, 0⟩) := by
    simp [parseJpegE, scanE, parseApp1E, parseTiffE, tiffBodyE, entryLoopE,
      getU16E, getU32E, readBytesE, readU16, readU32, readU8, c5buf, dateFromStr,
      jsDateParse19, rewriteDateSep, replaceFirstSpace, isDigitB, digitVal,
      daysInMonth, leapYear, List.getD, List.range, List.range.loop]
  rw [getExifDate, if_neg (by simp), h1, h2]

/-- C5 amended: a decoded 19-character string of the exact shape
`YYYY:MM:DD HH:MM:SS` with numeric components and a valid date yields
exactly that timestamp, and the same shape with an invalid month 13
yields no timestamp; strings of other shapes, however, may still yield a
timestamp when they already conform to the ISO local date-time format
after the parser's separator rewriting. -/
theorem c5_timestamp_validation_amended
    (y1 y2 y3 y4 m1 m2 d1 d2 a1 a2 b1 b2 e1 e2 : Nat)
    (hy1 : y1 ≤ 9) (hy2 : y2 ≤ 9) (hy3 : y3 ≤ 9) (hy4 : y4 ≤ 9)
    (hm1 : m1 ≤ 9) (hm2 : m2 ≤ 9) (hd1 : d1 ≤ 9) (hd2 : d2 ≤ 9)
    (ha1 : a1 ≤ 9) (ha2 : a2 ≤ 9) (hb1 : b1 ≤ 9) (hb2 : b2 ≤ 9)
    (he1 : e1 ≤ 9) (he2 : e2 ≤ 9) :
    (1 ≤ 10 * m1 + m2 → 10 * m1 + m2 ≤ 12 → 1 ≤ 10 * d1 + d2 →
      10 * d1 + d2 ≤ daysInMonth (1000 * y1 + 100 * y2 + 10 * y3 + y4) (10 * m1 + m2) →
      10 * a1 + a2 ≤ 23 → 10 * b1 + b2 ≤ 59 → 10 * e1 + e2 ≤ 59 →
      dateFromStr [48 + y1, 48 + y2, 48 + y3, 48 + y4, 58, 48 + m1, 48 + m2, 58,
          48 + d1, 48 + d2, 32, 48 + a1, 48 + a2, 58, 48 + b1, 48 + b2, 58,
          48 + e1, 48 + e2]
        = some (some ⟨1000 * y1 + 100 * y2 + 10 * y3 + y4, 10 * m1 + m2,
            10 * d1 + d2, 10 * a1 + a2, 10 * b1 + b2, 10 * e1 + e2⟩)) ∧
    (10 * m1 + m2 = 13 →
      dateFromStr [48 + y1, 48 + y2, 48 + y3, 48 + y4, 58, 48 + m1, 48 + m2, 58,
          48 + d1, 48 + d2, 32, 48 + a1, 48 + a2, 58, 48 + b1, 48 + b2, 58,
          48 + e1, 48 + e2]
        = some none) := by
  constructor
  · intro q1 q2 q3 q4 q5 q6 q7
    simp [dateFromStr, rewriteDateSep, replaceFirstSpace, jsDateParse19,
      isDigitB_of y1 hy1, isDigitB_of y2 hy2, isDigitB_of y3 hy3, isDigitB_of y4 hy4,
      isDigitB_of m1 hm1, isDigitB_of m2 hm2, isDigitB_of d1 hd1, isDigitB_of d2 hd2,
      isDigitB_of a1 ha1, isDigitB_of a2 ha2, isDigitB_of b1 hb1, isDigitB_of b2 hb2,
      isDigitB_of e1 he1, isDigitB_of e2 he2,
      beq32_of y1 hy1, beq32_of y2 hy2, beq32_of y3 hy3, beq32_of y4 hy4,
      beq32_of m1 hm1, beq32_of m2 hm2, beq32_of d1 hd1, beq32_of d2 hd2,
      digitVal_of, q1, q2, q3, q4, q5, q6, q7]
  · intro q13
    simp [dateFromStr, rewriteDateSep, replaceFirstSpace, jsDateParse19,
      isDigitB_of y1 hy1, isDigitB_of y2 hy2, isDigitB_of y3 hy3, isDigitB_of y4 hy4,
      isDigitB_of m1 hm1, isDigitB_of m2 hm2, isDigitB_of d1 hd1, isDigitB_of d2 hd2,
      isDigitB_of a1 ha1, isDigitB_of a2 ha2, isDigitB_of b1 hb1, isDigitB_of b2 hb2,
      isDigitB_of e1 he1, isDigitB_of e2 he2,
      beq32_of y1 hy1, beq32_of y2 hy2, beq32_of y3 hy3, beq32_of y4 hy4,
      beq32_of m1 hm1, beq32_of m2 hm2, beq32_of d1 hd1, beq32_of d2 hd2,
      digitVal_of]
    intro hcon
    omega

theorem c5_timestamp_validation_amended_witness :
    dateFromStr [48 + 2, 48 + 0, 48 + 2, 48 + 4, 58, 48 + 0, 48 + 3, 58,
        48 + 1, 48 + 5, 32, 48 + 1, 48 + 0, 58, 48 + 3, 48 + 0, 58, 48 + 0, 48 + 0]
      = some (some ⟨2024, 3, 15, 10, 30, 0⟩) ∧
    dateFromStr [48 + 2, 48 + 0, 48 + 2, 48 + 4, 58, 48 + 1, 48 + 3, 58,
        48 + 1, 48 + 5, 32, 48 + 1, 48 + 0, 58, 48 + 3, 48 + 0, 58, 48 + 0, 48 + 0]
      = some none :=
  ⟨(c5_timestamp_validation_amended 2 0 2 4 0 3 1 5 1 0 3 0 0 0
      (by decide) (by decide) (by decide) (by decide) (by decide) (by decide)
      (by decide) (by decide) (by decide) (by decide) (by decide) (by decide)
      (by decide) (by decide)).1
    (by decide) (by decide) (by decide) (by decide) (by decide) (by decide) (by decide),
   (c5_timestamp_validation_amended 2 0 2 4 1 3 1 5 1 0 3 0 0 0
      (by decide) (by decide) (by decide) (by decide) (by decide) (by decide)
      (by decide) (by decide) (by decide) (by decide) (by decide) (by decide)
      (by decide) (by decide)).2 (by decide)⟩

/-- C6: on the spec's concrete scenario buffer — SOI, APP1 with
`Exif\0\0`, little-endian TIFF header, magic `0x2A`, one ASCII entry for
tag `0x9003` with count 20 pointing at `"2024:03:15 10:30:00\0"` — the
parser returns the local-time instant 2024-03-15 10:30:00 (the result's
only field; nothing else is produced). -/
theorem c6_concrete_scenario :
    getExifDate "image/jpeg" c6buf = some ⟨2024, 3, 15, 10, 30, 0⟩ := by
  have h1 : List.take 65536 c6buf = c6buf := by decide
  have h2 : parseJpegE c6buf = .ok (some ⟨2024, 3, 15, 10, 30, 0⟩) := by
    simp [parseJpegE, scanE, parseApp1E, parseTiffE, tiffBodyE, entryLoopE,
      getU16E, getU32E, readBytesE, readU16, readU32, readU8, c6buf, dateFromStr,
      jsDateParse19, rewriteDateSep, replaceFirstSpace, isDigitB, digitVal,
      daysInMonth, leapYear, List.getD, List.range, List.range.loop]
  rw [getExifDate, if_neg (by simp), h1, h2]

/-- C7: every container-scanner failure — missing SOI marker, buffer too
short, start-of-scan marker before any APP1, truncated segment header,
end of buffer reached — yields the single "no metadata" outcome, and no
buffer makes the scanner raise an error to the caller. -/
theorem c7_scanner_failures_uniform :
    (∀ b : List Nat, b.length < 2 → parseJpegE b = .ok none) ∧
    (∀ b : List Nat, 2 ≤ b.length → readU16 b 0 false ≠ 0xFFD8 →
        parseJpegE b = .ok none) ∧
    (∀ (b : List Nat) (j : Nat), j < b.length - 1 → readU16 b j false = 0xFFDA →
        scanE b j = .ok none) ∧
    (∀ (b : List Nat) (j : Nat), j < b.length - 1 → readU16 b j false ≠ 0xFFDA →
        readU16 b j false ≠ 0xFFE1 → b.length < j + 4 → scanE b j = .ok none) ∧
    (∀ (b : List Nat) (j : Nat), b.length - 1 ≤ j → scanE b j = .ok none) ∧
    (∀ b : List Nat, ∃ r : Option LocalDT, parseJpegE b = .ok r) ∧
    getExifDate "image/jpeg" c7sosbuf = none := by
  refine ⟨?_, ?_, ?_, ?_, ?_, parseJpegE_ok, ?_⟩
  · intro b h
    rw [parseJpegE, if_pos h]
  · intro b h hsoi
    rw [parseJpegE, if_neg (by omega), getU16E_pos b _ false (by omega)]
    simp [hsoi]
  · intro b j hj hm
    rw [scanE, dif_pos hj, getU16E_pos b _ false (by omega)]
    simp [hm]
  · intro b j hj hm1 hm2 hlen
    rw [scanE, dif_pos hj, getU16E_pos b _ false (by omega)]
    simp only [hm1, if_false]
    simp only [ne_eq, hm2, not_false_eq_true, if_true]
    have : j + 4 > b.length := by omega
    simp [this]
  · intro b j hj
    rw [scanE, dif_neg (by omega)]
  · have h1 : List.take 65536 c7sosbuf = c7sosbuf := by decide
    have h2 : parseJpegE c7sosbuf = .ok none := by
      simp [parseJpegE, scanE, parseApp1E, getU16E, readU16, readU8, c7sosbuf,
        List.getD]
    rw [getExifDate, if_neg (by simp), h1, h2]

theorem c7_scanner_failures_uniform_witness :
    parseJpegE [] = Except.ok none ∧
    parseJpegE [0, 0] = Except.ok none ∧
    scanE c7sosbuf 2 = Except.ok none ∧
    scanE [0xFF, 0xD8, 0xFF, 0xE0, 0x00] 2 = Except.ok none ∧
    scanE [] 0 = Except.ok none :=
  ⟨c7_scanner_failures_uniform.1 [] (by decide),
   c7_scanner_failures_uniform.2.1 [0, 0] (by decide) (by decide),
   c7_scanner_failures_uniform.2.2.1 c7sosbuf 2 (by decide) (by decide),
   c7_scanner_failures_uniform.2.2.2.1 [0xFF, 0xD8, 0xFF, 0xE0, 0x00] 2
     (by decide) (by decide) (by decide) (by decide),
   c7_scanner_failures_uniform.2.2.2.2.1 [] 0 (by decide)⟩

/-- C9: the parse is decided by the first APP1 segment alone — when the
scan meets marker `0xFFE1` its result is exactly the APP1 parse of that
segment (the scan never resumes) — and concretely a buffer whose first
APP1 segment has a corrupt signature parses to "no metadata" even though
its second APP1 segment, alone, parses to a timestamp. -/
theorem c9_first_app1_decides :
    (∀ (b : List Nat) (j : Nat), j < b.length - 1 → readU16 b j false = 0xFFE1 →
        scanE b j = parseApp1E b j) ∧
    getExifDate "image/jpeg" c9buf1 = none ∧
    getExifDate "image/jpeg" ([0xFF, 0xD8] ++ c6buf.drop 2)
      = some ⟨2024, 3, 15, 10, 30, 0⟩ := by
  refine ⟨?_, ?_, ?_⟩
  · intro b j hj hmark
    rw [scanE, dif_pos hj, getU16E_pos b _ false (by omega)]
    simp [hmark]
  · have h1 : List.take 65536 c9buf1 = c9buf1 := by decide
    have h2 : parseJpegE c9buf1 = .ok none := by
      simp [parseJpegE, scanE, parseApp1E, getU16E, getU32E, readU16, readU32,
        readU8, c9buf1, c9badseg, c6buf, List.getD]
    rw [getExifDate, if_neg (by simp), h1, h2]
  · have hb : [0xFF, 0xD8] ++ c6buf.drop 2 = c6buf := by decide
    rw [hb]
    have h1 : List.take 65536 c6buf = c6buf := by decide
    have h2 : parseJpegE c6buf = .ok (some ⟨2024, 3, 15, 10, 30, 0⟩) := by
      simp [parseJpegE, scanE, parseApp1E, parseTiffE, tiffBodyE, entryLoopE,
        getU16E, getU32E, readBytesE, readU16, readU32, readU8, c6buf, dateFromStr,
        jsDateParse19, rewriteDateSep, replaceFirstSpace, isDigitB, digitVal,
        daysInMonth, leapYear, List.getD, List.range, List.range.loop]
    rw [getExifDate, if_neg (by simp), h1, h2]

theorem c9_first_app1_decides_witness :
    scanE c9buf1 2 = parseApp1E c9buf1 2 :=
  c9_first_app1_decides.1 c9buf1 2 (by decide) (by decide)

/-- C10: for any declared media type other than `image/jpeg` and
`image/jpg`, `getExifDate` returns "no metadata" whatever the buffer
holds — the gate is inside the parser itself. -/
theorem c10_media_type_gate (fileType : String) (bytes : List Nat)
    (h1 : fileType ≠ "image/jpeg") (h2 : fileType ≠ "image/jpg") :
    getExifDate fileType bytes = none := by
  unfold getExifDate
  rw [if_pos ⟨h1, h2⟩]

theorem c10_media_type_gate_witness :
    getExifDate "image/png" c6buf = none ∧ getExifDate "image/png" [] = none :=
  ⟨c10_media_type_gate "image/png" c6buf (by decide) (by decide),
   c10_media_type_gate "image/png" [] (by decide) (by decide)⟩

/-! ## Byte-order invariance (C8) -/

theorem u16bytes_length (le : Bool) (v : Nat) : (u16bytes le v).length = 2 := by
  cases le <;> simp [u16bytes]

theorem u32bytes_length (le : Bool) (v : Nat) : (u32bytes le v).length = 4 := by
  cases le <;> simp [u32bytes]

theorem bomBytes_length (le : Bool) : (bomBytes le).length = 2 := by
  cases le <;> simp [bomBytes]

theorem encEntry_length (le : Bool) (e : TiffEntry) : (encEntry le e).length = 12 := by
  simp [encEntry, u16bytes_length, u32bytes_length]

theorem flatten_entries_length (le : Bool) (es : List TiffEntry) :
    ((es.map (encEntry le)).flatten).length = 12 * es.length := by
  induction es with
  | nil => simp
  | cons e es ih =>
    simp only [List.map_cons, List.flatten_cons, List.length_append,
      encEntry_length, ih, List.length_cons]
    ring

theorem encTiff_length (le : Bool) (f : Nat) (es : List TiffEntry) (data : List Nat)
    (h : 8 ≤ f) :
    (encTiff le f es data).length = f + 2 + 12 * es.length + data.length := by
  rw [encTiff]
  simp only [List.length_append, bomBytes_length, u16bytes_length, u32bytes_length,
    List.length_replicate, flatten_entries_length]
  omega

theorem encodeJpeg_length (le : Bool) (f : Nat) (es : List TiffEntry) (data : List Nat)
    (h : 8 ≤ f) :
    (encodeJpeg le f es data).length = 14 + f + 12 * es.length + data.length := by
  rw [encodeJpeg]
  simp only [List.length_append, List.length_cons, List.length_nil, u16bytes_length,
    encTiff_length le f es data h]
  omega

theorem readU8_append_right (P Q : List Nat) (k : Nat) (h : P.length ≤ k) :
    readU8 (P ++ Q) k = readU8 Q (k - P.length) := by
  simp [readU8, List.getD, List.getElem?_append_right h]

theorem readU16_at (P Q : List Nat) (v : Nat) (le : Bool) :
    readU16 (P ++ (u16bytes le v ++ Q)) P.length le = v % 65536 := by
  have h0 : readU8 (P ++ (u16bytes le v ++ Q)) P.length
      = readU8 (u16bytes le v ++ Q) 0 := by
    rw [readU8_append_right _ _ _ (Nat.le_refl _), Nat.sub_self]
  have h1 : readU8 (P ++ (u16bytes le v ++ Q)) (P.length + 1)
      = readU8 (u16bytes le v ++ Q) 1 := by
    rw [readU8_append_right _ _ _ (by omega)]
    congr 1
    omega
  have g0 : readU8 (u16bytes le v ++ Q) 0 = (u16bytes le v).getD 0 0 := by
    cases le <;> simp [readU8, u16bytes]
  have g1 : readU8 (u16bytes le v ++ Q) 1 = (u16bytes le v).getD 1 0 := by
    cases le <;> simp [readU8, u16bytes]
  rw [readU16]
  cases le with
  | true =>
    rw [if_pos rfl, h0, h1, g0, g1]
    simp [u16bytes]
    omega
  | false =>
    rw [if_neg (by simp), h0, h1, g0, g1]
    simp [u16bytes]
    omega

theorem u32bytes_split (le : Bool) (v : Nat) :
    u32bytes le v = if le then u16bytes le (v % 65536) ++ u16bytes le (v / 65536)
      else u16bytes le (v / 65536) ++ u16bytes le (v % 65536) := by
  cases le <;> simp [u16bytes, u32bytes] <;>
    refine ⟨by omega, by omega, by omega⟩

theorem readU16_at_shift (P Q : List Nat) (v : Nat) (le : Bool) (i : Nat)
    (h : i = P.length) :
    readU16 (P ++ (u16bytes le v ++ Q)) i le = v % 65536 := by
  rw [h, readU16_at]

theorem readU32_at (P Q : List Nat) (v : Nat) (le : Bool) :
    readU32 (P ++ (u32bytes le v ++ Q)) P.length le = v % 4294967296 := by
  rw [u32bytes_split]
  cases le with
  | true =>
    rw [if_pos rfl]
    have ha : P ++ ((u16bytes true (v % 65536) ++ u16bytes true (v / 65536)) ++ Q)
        = P ++ (u16bytes true (v % 65536) ++ ((u16bytes true (v / 65536)) ++ Q)) := by
      simp [List.append_assoc]
    have hb : P ++ (u16bytes true (v % 65536) ++ ((u16bytes true (v / 65536)) ++ Q))
        = (P ++ u16bytes true (v % 65536)) ++ ((u16bytes true (v / 65536)) ++ Q) := by
      simp [List.append_assoc]
    rw [readU32, if_pos rfl, ha]
    rw [readU16_at_shift P _ _ _ _ rfl]
    rw [hb, readU16_at_shift _ _ _ _ _ (by simp [u16bytes_length])]
    omega
  | false =>
    rw [if_neg (by simp)]
    have ha : P ++ ((u16bytes false (v / 65536) ++ u16bytes false (v % 65536)) ++ Q)
        = P ++ (u16bytes false (v / 65536) ++ ((u16bytes false (v % 65536)) ++ Q)) := by
      simp [List.append_assoc]
    have hb : P ++ (u16bytes false (v / 65536) ++ ((u16bytes false (v % 65536)) ++ Q))
        = (P ++ u16bytes false (v / 65536)) ++ ((u16bytes false (v % 65536)) ++ Q) := by
      simp [List.append_assoc]
    rw [readU32, if_neg (by simp), ha]
    rw [readU16_at_shift P _ _ _ _ rfl]
    rw [hb, readU16_at_shift _ _ _ _ _ (by simp [u16bytes_length])]
    omega


theorem readU32_at_shift (P Q : List Nat) (v : Nat) (le : Bool) (i : Nat)
    (h : i = P.length) :
    readU32 (P ++ (u32bytes le v ++ Q)) i le = v % 4294967296 := by
  rw [h, readU32_at]

theorem bomBytes_eq (le : Bool) :
    bomBytes le = u16bytes false (if le then 0x4949 else 0x4D4D) := by
  cases le <;> decide

theorem flatten_decomp (le : Bool) (es : List TiffEntry) (i : Nat)
    (hi : i < es.length) :
    ∃ A B, (es.map (encEntry le)).flatten
        = A ++ (encEntry le (es.get ⟨i, hi⟩) ++ B) ∧ A.length = 12 * i := by
  refine ⟨((es.map (encEntry le)).take i).flatten,
    ((es.map (encEntry le)).drop (i+1)).flatten, ?_, ?_⟩
  · conv_lhs => rw [← List.take_append_drop i (es.map (encEntry le))]
    rw [List.drop_eq_getElem_cons (by simp [hi])]
    simp [List.flatten_append]
  · rw [← List.map_take, flatten_entries_length]
    simp [List.length_take]
    omega

theorem encTiff_decomp (le : Bool) (f : Nat) (es : List TiffEntry)
    (data : List Nat) (hf8 : 8 ≤ f) :
    ∃ P, encTiff le f es data
        = P ++ (u16bytes le es.length ++ (((es.map (encEntry le)).flatten) ++ data))
      ∧ P.length = f := by
  refine ⟨bomBytes le ++ u16bytes le 42 ++ u32bytes le f ++ List.replicate (f - 8) 0,
    ?_, ?_⟩
  · rw [encTiff]
    simp [List.append_assoc]
  · simp [bomBytes_length, u16bytes_length, u32bytes_length]
    omega

theorem readU16_pos_of (B P Q : List Nat) (v : Nat) (le : Bool) (i : Nat)
    (hB : B = P ++ (u16bytes le v ++ Q)) (h : i = P.length) :
    readU16 B i le = v % 65536 := by
  rw [hB, h, readU16_at]

theorem readU32_pos_of (B P Q : List Nat) (v : Nat) (le : Bool) (i : Nat)
    (hB : B = P ++ (u32bytes le v ++ Q)) (h : i = P.length) :
    readU32 B i le = v % 4294967296 := by
  rw [hB, h, readU32_at]

theorem encodeJpeg_read_soi (le : Bool) (f : Nat) (es : List TiffEntry)
    (data : List Nat) :
    readU16 (encodeJpeg le f es data) 0 false = 0xFFD8 := by
  rw [encodeJpeg, readU16, if_neg (by simp)]
  simp [readU8, List.getD]

theorem encodeJpeg_read_marker (le : Bool) (f : Nat) (es : List TiffEntry)
    (data : List Nat) :
    readU16 (encodeJpeg le f es data) 2 false = 0xFFE1 := by
  rw [encodeJpeg, readU16, if_neg (by simp)]
  simp [readU8, List.getD]

theorem encodeJpeg_read_seglen (le : Bool) (f : Nat) (es : List TiffEntry)
    (data : List Nat) :
    readU16 (encodeJpeg le f es data) 4 false
      = (8 + (encTiff le f es data).length) % 65536 := by
  refine readU16_pos_of _ [0xFF, 0xD8, 0xFF, 0xE1]
    ([0x45, 0x78, 0x69, 0x66, 0x00, 0x00] ++ encTiff le f es data) _ false 4 ?_ ?_
  · simp [encodeJpeg, List.append_assoc]
  · simp

theorem encodeJpeg_read_sig (le : Bool) (f : Nat) (es : List TiffEntry)
    (data : List Nat) :
    readU32 (encodeJpeg le f es data) 6 false = 0x45786966 ∧
    readU16 (encodeJpeg le f es data) 10 false = 0 := by
  have hsig : ([0x45, 0x78, 0x69, 0x66, 0x00, 0x00] : List Nat)
      = u32bytes false 0x45786966 ++ u16bytes false 0 := by decide
  constructor
  · have := readU32_pos_of (encodeJpeg le f es data)
      ([0xFF, 0xD8, 0xFF, 0xE1] ++ u16bytes false (8 + (encTiff le f es data).length))
      (u16bytes false 0 ++ encTiff le f es data) 0x45786966 false 6
      (by rw [encodeJpeg, hsig]; simp [List.append_assoc])
      (by simp [u16bytes_length])
    simpa using this
  · exact readU16_pos_of _
      ([0xFF, 0xD8, 0xFF, 0xE1] ++ u16bytes false (8 + (encTiff le f es data).length)
        ++ u32bytes false 0x45786966)
      (encTiff le f es data) 0 false 10
      (by rw [encodeJpeg, hsig]; simp [List.append_assoc])
      (by simp [u16bytes_length, u32bytes_length])


theorem encodeJpeg_read_bom (le : Bool) (f : Nat) (es : List TiffEntry)
    (data : List Nat) :
    readU16 (encodeJpeg le f es data) 12 false
      = if le then 0x4949 else 0x4D4D := by
  have h := readU16_pos_of (encodeJpeg le f es data)
    ([0xFF, 0xD8, 0xFF, 0xE1] ++ u16bytes false (8 + (encTiff le f es data).length)
      ++ [0x45, 0x78, 0x69, 0x66, 0x00, 0x00])
    (u16bytes le 42 ++ u32bytes le f ++ List.replicate (f - 8) 0
      ++ u16bytes le es.length ++ (es.map (encEntry le)).flatten ++ data)
    (if le then 0x4949 else 0x4D4D) false 12
    (by rw [encodeJpeg, encTiff, bomBytes_eq]; simp [List.append_assoc])
    (by simp [u16bytes_length])
  cases le <;> simpa using h

theorem encodeJpeg_read_magic (le : Bool) (f : Nat) (es : List TiffEntry)
    (data : List Nat) :
    readU16 (encodeJpeg le f es data) 14 le = 42 := by
  have h := readU16_pos_of (encodeJpeg le f es data)
    ([0xFF, 0xD8, 0xFF, 0xE1] ++ u16bytes false (8 + (encTiff le f es data).length)
      ++ [0x45, 0x78, 0x69, 0x66, 0x00, 0x00] ++ bomBytes le)
    (u32bytes le f ++ List.replicate (f - 8) 0
      ++ u16bytes le es.length ++ (es.map (encEntry le)).flatten ++ data)
    42 le 14
    (by rw [encodeJpeg, encTiff]; simp [List.append_assoc])
    (by simp [u16bytes_length, bomBytes_length])
  simpa using h

theorem encodeJpeg_read_ifdoff (le : Bool) (f : Nat) (es : List TiffEntry)
    (data : List Nat) :
    readU32 (encodeJpeg le f es data) 16 le = f % 4294967296 := by
  exact readU32_pos_of (encodeJpeg le f es data)
    ([0xFF, 0xD8, 0xFF, 0xE1] ++ u16bytes false (8 + (encTiff le f es data).length)
      ++ [0x45, 0x78, 0x69, 0x66, 0x00, 0x00] ++ bomBytes le ++ u16bytes le 42)
    (List.replicate (f - 8) 0
      ++ u16bytes le es.length ++ (es.map (encEntry le)).flatten ++ data)
    f le 16
    (by rw [encodeJpeg, encTiff]; simp [List.append_assoc])
    (by simp [u16bytes_length, bomBytes_length])

theorem encodeJpeg_read_count (le : Bool) (f : Nat) (es : List TiffEntry)
    (data : List Nat) (hf8 : 8 ≤ f) :
    readU16 (encodeJpeg le f es data) (12 + f) le = es.length % 65536 := by
  obtain ⟨PT, hT, hTlen⟩ := encTiff_decomp le f es data hf8
  exact readU16_pos_of (encodeJpeg le f es data)
    ([0xFF, 0xD8, 0xFF, 0xE1] ++ u16bytes false (8 + (encTiff le f es data).length)
      ++ [0x45, 0x78, 0x69, 0x66, 0x00, 0x00] ++ PT)
    ((es.map (encEntry le)).flatten ++ data)
    es.length le (12 + f)
    (by rw [encodeJpeg]
        generalize 8 + (encTiff le f es data).length = L
        rw [hT]
        simp [List.append_assoc])
    (by simp [u16bytes_length, hTlen]; omega)

theorem encodeJpeg_read_entry (le : Bool) (f : Nat) (es : List TiffEntry)
    (data : List Nat) (hf8 : 8 ≤ f) (i : Nat) (hi : i < es.length) :
    readU16 (encodeJpeg le f es data) (12 + f + 2 + i * 12) le
        = (es.get ⟨i, hi⟩).tag % 65536 ∧
    readU16 (encodeJpeg le f es data) (12 + f + 2 + i * 12 + 2) le
        = (es.get ⟨i, hi⟩).ty % 65536 ∧
    readU32 (encodeJpeg le f es data) (12 + f + 2 + i * 12 + 4) le
        = (es.get ⟨i, hi⟩).cnt % 4294967296 ∧
    readU32 (encodeJpeg le f es data) (12 + f + 2 + i * 12 + 8) le
        = (es.get ⟨i, hi⟩).off % 4294967296 := by
  obtain ⟨PT, hT, hTlen⟩ := encTiff_decomp le f es data hf8
  obtain ⟨A, B, hA, hAlen⟩ := flatten_decomp le es i hi
  refine ⟨?_, ?_, ?_, ?_⟩
  · exact readU16_pos_of (encodeJpeg le f es data)
      ([0xFF, 0xD8, 0xFF, 0xE1] ++ u16bytes false (8 + (encTiff le f es data).length)
        ++ [0x45, 0x78, 0x69, 0x66, 0x00, 0x00] ++ PT ++ u16bytes le es.length ++ A)
      (u16bytes le (es.get ⟨i, hi⟩).ty ++ u32bytes le (es.get ⟨i, hi⟩).cnt
        ++ u32bytes le (es.get ⟨i, hi⟩).off ++ (B ++ data))
      (es.get ⟨i, hi⟩).tag le (12 + f + 2 + i * 12)
      (by rw [encodeJpeg]
          generalize 8 + (encTiff le f es data).length = L
          rw [hT, hA, encEntry]
          simp [List.append_assoc])
      (by simp [u16bytes_length, hTlen, hAlen]; omega)
  · exact readU16_pos_of (encodeJpeg le f es data)
      ([0xFF, 0xD8, 0xFF, 0xE1] ++ u16bytes false (8 + (encTiff le f es data).length)
        ++ [0x45, 0x78, 0x69, 0x66, 0x00, 0x00] ++ PT ++ u16bytes le es.length ++ A
        ++ u16bytes le (es.get ⟨i, hi⟩).tag)
      (u32bytes le (es.get ⟨i, hi⟩).cnt ++ u32bytes le (es.get ⟨i, hi⟩).off
        ++ (B ++ data))
      (es.get ⟨i, hi⟩).ty le (12 + f + 2 + i * 12 + 2)
      (by rw [encodeJpeg]
          generalize 8 + (encTiff le f es data).length = L
          rw [hT, hA, encEntry]
          simp [List.append_assoc])
      (by simp [u16bytes_length, hTlen, hAlen]; omega)
  · exact readU32_pos_of (encodeJpeg le f es data)
      ([0xFF, 0xD8, 0xFF, 0xE1] ++ u16bytes false (8 + (encTiff le f es data).length)
        ++ [0x45, 0x78, 0x69, 0x66, 0x00, 0x00] ++ PT ++ u16bytes le es.length ++ A
        ++ u16bytes le (es.get ⟨i, hi⟩).tag ++ u16bytes le (es.get ⟨i, hi⟩).ty)
      (u32bytes le (es.get ⟨i, hi⟩).off ++ (B ++ data))
      (es.get ⟨i, hi⟩).cnt le (12 + f + 2 + i * 12 + 4)
      (by rw [encodeJpeg]
          generalize 8 + (encTiff le f es data).length = L
          rw [hT, hA, encEntry]
          simp [List.append_assoc])
      (by simp [u16bytes_length, hTlen, hAlen]; omega)
  · exact readU32_pos_of (encodeJpeg le f es data)
      ([0xFF, 0xD8, 0xFF, 0xE1] ++ u16bytes false (8 + (encTiff le f es data).length)
        ++ [0x45, 0x78, 0x69, 0x66, 0x00, 0x00] ++ PT ++ u16bytes le es.length ++ A
        ++ u16bytes le (es.get ⟨i, hi⟩).tag ++ u16bytes le (es.get ⟨i, hi⟩).ty
        ++ u32bytes le (es.get ⟨i, hi⟩).cnt)
      (B ++ data)
      (es.get ⟨i, hi⟩).off le (12 + f + 2 + i * 12 + 8)
      (by rw [encodeJpeg]
          generalize 8 + (encTiff le f es data).length = L
          rw [hT, hA, encEntry]
          simp [List.append_assoc])
      (by simp [u16bytes_length, u32bytes_length, hTlen, hAlen]; omega)

theorem encodeJpeg_read_data (le : Bool) (f : Nat) (es : List TiffEntry)
    (data : List Nat) (hf8 : 8 ≤ f) (p : Nat)
    (hp : 14 + f + 12 * es.length ≤ p) :
    readU8 (encodeJpeg le f es data) p
      = readU8 data (p - (14 + f + 12 * es.length)) := by
  obtain ⟨PT, hT, hTlen⟩ := encTiff_decomp le f es data hf8
  have hB : encodeJpeg le f es data
      = ([0xFF, 0xD8, 0xFF, 0xE1]
          ++ u16bytes false (8 + (encTiff le f es data).length)
          ++ [0x45, 0x78, 0x69, 0x66, 0x00, 0x00] ++ PT ++ u16bytes le es.length
          ++ (es.map (encEntry le)).flatten) ++ data := by
    rw [encodeJpeg]
    generalize 8 + (encTiff le f es data).length = L
    rw [hT]
    simp [List.append_assoc]
  have hlen : ([0xFF, 0xD8, 0xFF, 0xE1]
      ++ u16bytes false (8 + (encTiff le f es data).length)
      ++ [0x45, 0x78, 0x69, 0x66, 0x00, 0x00] ++ PT ++ u16bytes le es.length
      ++ (es.map (encEntry le)).flatten).length = 14 + f + 12 * es.length := by
    simp only [List.length_append, List.length_cons, List.length_nil,
      u16bytes_length, hTlen, flatten_entries_length]
    omega
  rw [hB, readU8_append_right _ _ _ (by omega), hlen]


theorem bom_beq (le : Bool) :
    (((if le then 0x4949 else 0x4D4D) : Nat) == 0x4949) = le := by
  cases le <;> decide

theorem parseApp1_step (b : List Nat) (L : Nat)
    (h4 : readU16 b 4 false = L) (hL : 4 + L ≤ b.length)
    (hsig : readU32 b 6 false = 0x45786966) (hnul : readU16 b 10 false = 0)
    (hlen : 20 ≤ b.length) :
    parseApp1E b 2 = parseTiffE b 12 := by
  rw [parseApp1E, if_neg (by omega), getU16E_pos _ _ false (by omega), h4]
  have c1 : ¬ (2 + 2 + L > b.length) := by omega
  simp only [c1, if_false]
  have c2 : ¬ (2 + 4 + 6 > b.length) := by omega
  simp only [c2, if_false]
  rw [getU32E_pos _ _ false (by omega),
    show (2 + 4 : Nat) = 6 from rfl, hsig]
  simp only [ne_eq, not_true_eq_false, if_false]
  rw [getU16E_pos _ _ false (by omega),
    show (2 + 4 + 4 : Nat) = 10 from rfl, hnul]
  have c3 : ¬ (2 + 10 + 8 > b.length) := by omega
  simp only [c3, if_false, show (2 + 10 : Nat) = 12 from rfl]
  simp

theorem parseTiff_step (b : List Nat) (h : 14 ≤ b.length) :
    parseTiffE b 12 = tiffBodyE b 12 (readU16 b 12 false == 0x4949) := by
  rw [parseTiffE, getU16E_pos _ _ false (by omega)]

theorem tiffBody_step (b : List Nat) (le : Bool) (f n : Nat)
    (hmag : readU16 b 14 le = 0x2A) (hifd : readU32 b 16 le = f)
    (hf8 : 8 ≤ f) (hb : 12 + f + 2 ≤ b.length)
    (hcnt : readU16 b (12 + f) le = n) (h20 : 20 ≤ b.length) :
    tiffBodyE b 12 le = entryLoopE b 12 (12 + f) le n 0 := by
  rw [tiffBodyE, getU16E_pos _ _ le (by omega),
    show (12 + 2 : Nat) = 14 from rfl, hmag]
  simp only [ne_eq, not_true_eq_false, if_false]
  rw [getU32E_pos _ _ le (by omega),
    show (12 + 4 : Nat) = 16 from rfl, hifd]
  have c1 : ¬ (f < 8) := by omega
  simp only [c1, if_false]
  have c2 : ¬ (12 + f + 2 > b.length) := by omega
  simp only [c2, if_false]
  rw [getU16E_pos _ _ le (by omega), hcnt]

theorem c8_reduce (le : Bool) (f : Nat) (es : List TiffEntry) (data : List Nat)
    (hf8 : 8 ≤ f) (hf : f ≤ 65535) (hn : es.length < 65536)
    (hseg : 8 + (f + 2 + 12 * es.length + data.length) ≤ 65535) :
    parseJpegE (encodeJpeg le f es data)
      = entryLoopE (encodeJpeg le f es data) 12 (12 + f) le es.length 0 := by
  have hT : (encTiff le f es data).length = f + 2 + 12 * es.length + data.length :=
    encTiff_length le f es data hf8
  have hE : (encodeJpeg le f es data).length = 14 + f + 12 * es.length + data.length :=
    encodeJpeg_length le f es data hf8
  rw [parseJpeg_step _ (by omega) (encodeJpeg_read_soi le f es data),
    scanE_app1_step _ 2 (by omega) (encodeJpeg_read_marker le f es data),
    parseApp1_step _ (8 + (f + 2 + 12 * es.length + data.length))
      (by rw [encodeJpeg_read_seglen, hT]; exact Nat.mod_eq_of_lt (by omega))
      (by omega)
      (encodeJpeg_read_sig le f es data).1
      (encodeJpeg_read_sig le f es data).2
      (by omega),
    parseTiff_step _ (by omega),
    encodeJpeg_read_bom, bom_beq,
    tiffBody_step _ le f es.length
      (encodeJpeg_read_magic le f es data)
      (by rw [encodeJpeg_read_ifdoff]; exact Nat.mod_eq_of_lt (by omega))
      hf8 (by omega)
      (by rw [encodeJpeg_read_count le f es data hf8]; exact Nat.mod_eq_of_lt hn)
      (by omega)]


theorem c8_loop (f : Nat) (es : List TiffEntry) (data : List Nat)
    (hf8 : 8 ≤ f)
    (hfields : ∀ e ∈ es, e.tag < 65536 ∧ e.ty < 65536 ∧
        e.cnt < 4294967296 ∧ e.off < 4294967296)
    (hderef : ∀ e ∈ es, e.tag = 0x9003 → e.ty = 2 → e.cnt = 20 →
        f + 2 + 12 * es.length ≤ e.off) :
    ∀ k i, es.length - i ≤ k →
      entryLoopE (encodeJpeg true f es data) 12 (12 + f) true es.length i
        = entryLoopE (encodeJpeg false f es data) 12 (12 + f) false es.length i := by
  have hEt : (encodeJpeg true f es data).length
      = 14 + f + 12 * es.length + data.length := encodeJpeg_length _ _ _ _ hf8
  have hEf : (encodeJpeg false f es data).length
      = 14 + f + 12 * es.length + data.length := encodeJpeg_length _ _ _ _ hf8
  intro k
  induction k with
  | zero =>
    intro i hk
    have hi : ¬ i < es.length := by omega
    conv_lhs => rw [entryLoopE]
    conv_rhs => rw [entryLoopE]
    simp [hi]
  | succ k ih =>
    intro i hk
    by_cases hi : i < es.length
    case neg =>
      conv_lhs => rw [entryLoopE]
      conv_rhs => rw [entryLoopE]
      simp [hi]
    case pos =>
      obtain ⟨htag, hty, hcnt, hoff⟩ := encodeJpeg_read_entry true f es data hf8 i hi
      obtain ⟨htag', hty', hcnt', hoff'⟩ := encodeJpeg_read_entry false f es data hf8 i hi
      obtain ⟨ht1, ht2, ht3, ht4⟩ := hfields (es.get ⟨i, hi⟩) (es.get_mem i hi)
      rw [Nat.mod_eq_of_lt ht1] at htag htag'
      rw [Nat.mod_eq_of_lt ht2] at hty hty'
      rw [Nat.mod_eq_of_lt ht3] at hcnt hcnt'
      rw [Nat.mod_eq_of_lt ht4] at hoff hoff'
      simp only [List.get_eq_getElem] at htag hty hcnt hoff htag' hty' hcnt' hoff'
      conv_lhs => rw [entryLoopE]
      conv_rhs => rw [entryLoopE]
      rw [if_pos hi, if_pos hi]
      have cwL : ¬ (12 + f + 2 + i * 12 + 12 > (encodeJpeg true f es data).length) := by
        rw [hEt]; omega
      have cwR : ¬ (12 + f + 2 + i * 12 + 12 > (encodeJpeg false f es data).length) := by
        rw [hEf]; omega
      simp only [cwL, cwR, if_false]
      rw [getU16E_pos _ _ true (by rw [hEt]; omega), htag,
        getU16E_pos _ _ false (by rw [hEf]; omega), htag']
      by_cases htg : es[i].tag = 0x9003
      case neg =>
        simp only [htg, if_false]
        exact ih (i+1) (by omega)
      case pos =>
        simp only [htg, if_true]
        rw [getU16E_pos _ _ true (by rw [hEt]; omega), hty,
          getU32E_pos _ _ true (by rw [hEt]; omega), hcnt,
          getU32E_pos _ _ true (by rw [hEt]; omega), hoff,
          getU16E_pos _ _ false (by rw [hEf]; omega), hty',
          getU32E_pos _ _ false (by rw [hEf]; omega), hcnt',
          getU32E_pos _ _ false (by rw [hEf]; omega), hoff']
        by_cases htc : es[i].ty = 2 ∧ es[i].cnt = 20
        case neg =>
          simp only [htc, if_false]
          exact ih (i+1) (by omega)
        case pos =>
          simp only [htc, and_self, if_true]
          have hoffge : f + 2 + 12 * es.length ≤ es[i].off :=
            hderef (es.get ⟨i, hi⟩) (es.get_mem i hi) htg htc.1 htc.2
          by_cases hso : 12 + es[i].off + 20
              > 14 + f + 12 * es.length + data.length
          case pos =>
            have hsoL : 12 + es[i].off + 20
                > (encodeJpeg true f es data).length := by rw [hEt]; omega
            have hsoR : 12 + es[i].off + 20
                > (encodeJpeg false f es data).length := by rw [hEf]; omega
            simp only [hsoL, hsoR, if_true]
          case neg =>
            have hsoL : ¬ (12 + es[i].off + 20
                > (encodeJpeg true f es data).length) := by rw [hEt]; omega
            have hsoR : ¬ (12 + es[i].off + 20
                > (encodeJpeg false f es data).length) := by rw [hEf]; omega
            simp only [hsoL, hsoR, if_false]
            rw [readBytesE_pos _ _ _ (by rw [hEt]; omega),
              readBytesE_pos _ _ _ (by rw [hEf]; omega)]
            have hbytes : ((List.range 19).map fun j2 =>
                  readU8 (encodeJpeg true f es data) (12 + es[i].off + j2))
                = ((List.range 19).map fun j2 =>
                  readU8 (encodeJpeg false f es data) (12 + es[i].off + j2)) := by
              apply List.map_congr_left
              intro j2 hj2
              rw [encodeJpeg_read_data true f es data hf8 _ (by omega),
                encodeJpeg_read_data false f es data hf8 _ (by omega)]
            rw [hbytes]
            cases hdf : dateFromStr ((List.range 19).map fun j2 =>
                readU8 (encodeJpeg false f es data) (12 + es[i].off + j2)) with
            | some r => simp [hdf]
            | none =>
              simp only [hdf]
              exact ih (i+1) (by omega)


/-- C8: the same logical TIFF directory-entry values (first-IFD offset,
entries, value bytes) encoded once little-endian and once big-endian
decode to the identical result, both for the raw parse and for
`getExifDate`. -/
theorem c8_byte_order_invariance (f : Nat) (es : List TiffEntry) (data : List Nat)
    (hf8 : 8 ≤ f) (hn : es.length < 65536)
    (hseg : 8 + (f + 2 + 12 * es.length + data.length) ≤ 65532)
    (hfields : ∀ e ∈ es, e.tag < 65536 ∧ e.ty < 65536 ∧
        e.cnt < 4294967296 ∧ e.off < 4294967296)
    (hderef : ∀ e ∈ es, e.tag = 0x9003 → e.ty = 2 → e.cnt = 20 →
        f + 2 + 12 * es.length ≤ e.off) :
    parseJpegE (encodeJpeg true f es data) = parseJpegE (encodeJpeg false f es data) ∧
    getExifDate "image/jpeg" (encodeJpeg true f es data)
      = getExifDate "image/jpeg" (encodeJpeg false f es data) := by
  have hp : parseJpegE (encodeJpeg true f es data)
      = parseJpegE (encodeJpeg false f es data) := by
    rw [c8_reduce true f es data hf8 (by omega) hn (by omega),
      c8_reduce false f es data hf8 (by omega) hn (by omega)]
    exact c8_loop f es data hf8 hfields hderef es.length 0 (by omega)
  refine ⟨hp, ?_⟩
  have h1 : List.take 65536 (encodeJpeg true f es data) = encodeJpeg true f es data :=
    List.take_of_length_le (by rw [encodeJpeg_length _ _ _ _ hf8]; omega)
  have h2 : List.take 65536 (encodeJpeg false f es data) = encodeJpeg false f es data :=
    List.take_of_length_le (by rw [encodeJpeg_length _ _ _ _ hf8]; omega)
  rw [getExifDate, getExifDate, if_neg (by simp), if_neg (by simp), h1, h2, hp]

theorem c8_byte_order_invariance_witness :
    parseJpegE (encodeJpeg true 8 [⟨0x9003, 2, 20, 22⟩]
        [0x32,0x30,0x32,0x34,0x3A,0x30,0x33,0x3A,0x31,0x35,0x20,
         0x31,0x30,0x3A,0x33,0x30,0x3A,0x30,0x30,0x00])
      = parseJpegE (encodeJpeg false 8 [⟨0x9003, 2, 20, 22⟩]
        [0x32,0x30,0x32,0x34,0x3A,0x30,0x33,0x3A,0x31,0x35,0x20,
         0x31,0x30,0x3A,0x33,0x30,0x3A,0x30,0x30,0x00]) :=
  (c8_byte_order_invariance 8 [⟨0x9003, 2, 20, 22⟩]
    [0x32,0x30,0x32,0x34,0x3A,0x30,0x33,0x3A,0x31,0x35,0x20,
     0x31,0x30,0x3A,0x33,0x30,0x3A,0x30,0x30,0x00]
    (by decide) (by decide) (by decide)
    (by intro e he; simp at he; subst he; exact ⟨by decide, by decide, by decide, by decide⟩)
    (by intro e he _ _ _; simp at he; subst he; decide)).1


end PhotoMinder
